import Mathlib

/-!
Verification of the GameSolve repository (SolvePuzzle.py, GameScreenCapture.py,
SudokuSolver.py) against its natural-language specification.

The Python functions are shallowly embedded: pure computations become Lean
functions; results of external library calls (cv2.findContours,
cv2.contourArea, cv2.approxPolyDP, pytesseract OCR output, PIL/mss capture
results) are passed in as explicit data, and the repository's own logic over
them is translated line by line.
-/

/-! ## Embedding of SolvePuzzle.find_sudoku_grid (lines 30-47)

A contour, as the function consumes it, is characterised by its
cv2.contourArea value (modelled as a rational) and the point list produced by
cv2.approxPolyDP for it (both are external library outputs; the function's own
logic only compares areas and counts approximation vertices). -/

structure PyContour where
  area : ℚ
  approx : List (ℤ × ℤ)
deriving Repr, DecidableEq

/-- Python max(contours, key=cv2.contourArea): first element with maximal
key wins ties, since the fold replaces the accumulator only on a strict
increase. -/
def maxByArea : List PyContour → Option PyContour
  | [] => none
  | c :: cs => some (cs.foldl (fun a d => if a.area < d.area then d else a) c)

/-- SolvePuzzle.find_sudoku_grid: return None when there are no contours;
otherwise take the largest contour by cv2.contourArea, approximate it to a
polygon, and return that polygon iff it has exactly 4 vertices. -/
def find_sudoku_grid (contours : List PyContour) : Option (List (ℤ × ℤ)) :=
  match maxByArea contours with
  | none => none
  | some largest =>
    if largest.approx.length = 4 then some largest.approx else none

/-! Bounding rectangle of a point list, as cv2.boundingRect computes it
(x = min x, y = min y, width = max x - min x + 1, height = max y - min y + 1);
used to state the spec's filter-and-score rule over contours. -/

def boundingRect (p : ℤ × ℤ) (ps : List (ℤ × ℤ)) : ℤ × ℤ × ℤ × ℤ :=
  let xs := p.1 :: ps.map Prod.fst
  let ys := p.2 :: ps.map Prod.snd
  let x0 := xs.foldl min p.1
  let y0 := ys.foldl min p.2
  let x1 := xs.foldl max p.1
  let y1 := ys.foldl max p.2
  (x0, y0, x1 - x0 + 1, y1 - y0 + 1)

/-- Rectangle area as a rational, for comparison against fractions of the
image area. -/
def rectArea (r : ℤ × ℤ × ℤ × ℤ) : ℚ := (r.2.2.1 : ℚ) * (r.2.2.2 : ℚ)

/-- Aspect ratio width/height of a bounding rectangle. -/
def rectRatio (r : ℤ × ℤ × ℤ × ℤ) : ℚ := (r.2.2.1 : ℚ) / (r.2.2.2 : ℚ)

/-- The spec's candidate filter (spec section 4.1 step 5): keep a bounding
rectangle iff its area is at least 5 percent of the total image area and its
aspect ratio lies in [0.85, 1.15]. -/
def specFilter (imgArea : ℚ) (r : ℤ × ℤ × ℤ × ℤ) : Bool :=
  decide (¬ rectArea r < imgArea * (5 / 100)) &&
  decide ((85 / 100 : ℚ) ≤ rectRatio r) && decide (rectRatio r ≤ 115 / 100)

/-- The spec's candidate score (spec section 4.1 step 6):
area times (1 - |aspectRatio - 1|). -/
def specScore (r : ℤ × ℤ × ℤ × ℤ) : ℚ :=
  rectArea r * (1 - |rectRatio r - 1|)

/-- The spec's filter-and-score selection rule over the contours' bounding
rectangles, stated from the spec's words for comparison with
find_sudoku_grid: discard candidates failing specFilter, then pick the
surviving candidate maximizing specScore (first wins ties). -/
def specSelect (imgArea : ℚ) (rects : List (ℤ × ℤ × ℤ × ℤ)) :
    Option (ℤ × ℤ × ℤ × ℤ) :=
  match rects.filter (specFilter imgArea) with
  | [] => none
  | r :: rs => some (rs.foldl (fun a d => if specScore a < specScore d then d else a) r)

/-! ## Embedding of SolvePuzzle.recognize_digit (lines 79-98)

The pytesseract output is an arbitrary string (modelled as a character list);
the function's own logic is Python's strip, the emptiness/length/isdigit
checks and int conversion. -/

/-- Python's default str.strip removes these whitespace characters from both
ends (space, tab, newline, carriage return, vertical tab, form feed). -/
def isPySpace (c : Char) : Bool :=
  c = ' ' || c = '\t' || c = '\n' || c = '\r' ||
  c = Char.ofNat 11 || c = Char.ofNat 12

/-- Python str.strip() with no argument. -/
def pyStrip (s : List Char) : List Char :=
  ((s.dropWhile isPySpace).reverse.dropWhile isPySpace).reverse

/-- A decimal digit character (code point between 48 and 57); Python's
str.isdigit restricted to the ASCII strings this pipeline produces (the OCR
call is whitelisted to 0123456789). -/
def pyIsDigitChar (c : Char) : Bool := 48 ≤ c.toNat && c.toNat ≤ 57

/-- Python str.isdigit(): true iff the string is nonempty and every
character is a digit. -/
def pyIsDigitStr (s : List Char) : Bool := !s.isEmpty && s.all pyIsDigitChar

/-- Python int() on a string of decimal digits. -/
def pyInt (s : List Char) : ℕ := s.foldl (fun a c => 10 * a + (c.toNat - 48)) 0

/-- SolvePuzzle.recognize_digit: strip the OCR output; if it is empty, not a
single character, or not a digit, return 0; otherwise its integer value. -/
def recognize_digit (s : List Char) : ℕ :=
  let digit := pyStrip s
  if digit.isEmpty || digit.length ≠ 1 || !pyIsDigitStr digit then 0
  else pyInt digit

/-! ## Embedding of SolvePuzzle.extract_cells (lines 49-77)

The warped image is a height x width raster; numpy slicing a[y1:y2, x1:x2]
follows Python slice semantics: a negative endpoint counts from the end of
the axis, after which endpoints are clamped into [0, len]. -/

/-- Normalise one Python slice endpoint against an axis of length len:
negative values wrap by adding len, then the result is clamped to [0, len]. -/
def pyBound (len : ℕ) (i : ℤ) : ℕ :=
  let j : ℤ := if i < 0 then i + len else i
  if j < 0 then 0 else min j.toNat len

/-- The index list selected by the Python slice a[start:stop] (step 1) on an
axis of length len. -/
def pySliceIdx (len : ℕ) (start stop : ℤ) : List ℕ :=
  let a := pyBound len start
  let b := pyBound len stop
  List.range' a (b - a)

/-- The row (or column) indices of tile number k along an axis of length
len, as extract_cells slices them: cell size len // 9, margin 5, slice
[k * cell + 5 : (k+1) * cell - 5]. -/
def tileIdx (len : ℕ) (k : ℕ) : List ℕ :=
  let cell := len / 9
  pySliceIdx len ((k : ℤ) * cell + 5) (((k : ℤ) + 1) * cell - 5)

/-- SolvePuzzle.extract_cells with grid_size 9: the 9 x 9 nested list of
tiles, each tile the submatrix of the warped image selected by the slices
above. -/
def extract_cells (h w : ℕ) (warped : ℕ → ℕ → ℕ) :
    List (List (List (List ℕ))) :=
  (List.range 9).map fun row =>
    (List.range 9).map fun col =>
      (tileIdx h row).map fun r => (tileIdx w col).map fun c => warped r c

/-! ## Embedding of the corner ordering and warp-target geometry of
SolvePuzzle.recognize_sudoku_from_image (lines 117-143) -/

/-- First index attaining the minimum of four keys, as np.argmin returns it,
applied to select among four points. -/
def pickMin4 (k : ℤ × ℤ → ℤ) (p0 p1 p2 p3 : ℤ × ℤ) : ℤ × ℤ :=
  if k p0 ≤ k p1 ∧ k p0 ≤ k p2 ∧ k p0 ≤ k p3 then p0
  else if k p1 ≤ k p2 ∧ k p1 ≤ k p3 then p1
  else if k p2 ≤ k p3 then p2
  else p3

/-- First index attaining the maximum of four keys, as np.argmax returns it. -/
def pickMax4 (k : ℤ × ℤ → ℤ) (p0 p1 p2 p3 : ℤ × ℤ) : ℤ × ℤ :=
  if k p1 ≤ k p0 ∧ k p2 ≤ k p0 ∧ k p3 ≤ k p0 then p0
  else if k p2 ≤ k p1 ∧ k p3 ≤ k p1 then p1
  else if k p3 ≤ k p2 then p2
  else p3

/-- Coordinate sum, the key for top-left/bottom-right selection. -/
def coordSum (p : ℤ × ℤ) : ℤ := p.1 + p.2

/-- np.diff along axis 1 of a (4,2) point array yields y - x per point, the
key for top-right/bottom-left selection. -/
def coordDiff (p : ℤ × ℤ) : ℤ := p.2 - p.1

/-- The corner ordering of recognize_sudoku_from_image lines 121-128:
rect[0] = argmin of sums (top-left), rect[2] = argmax of sums
(bottom-right), rect[1] = argmin of differences (top-right),
rect[3] = argmax of differences (bottom-left). -/
def order_points (p0 p1 p2 p3 : ℤ × ℤ) :
    (ℤ × ℤ) × (ℤ × ℤ) × (ℤ × ℤ) × (ℤ × ℤ) :=
  (pickMin4 coordSum p0 p1 p2 p3,
   pickMin4 coordDiff p0 p1 p2 p3,
   pickMax4 coordSum p0 p1 p2 p3,
   pickMax4 coordDiff p0 p1 p2 p3)

/-- Squared euclidean distance between two integer points; the code's edge
lengths np.linalg.norm(a - b) are the square roots of these, and since the
square root is strictly monotone all comparisons between widths and heights
are decided by the squares. -/
def sqDist (a b : ℤ × ℤ) : ℤ := (a.1 - b.1) ^ 2 + (a.2 - b.2) ^ 2

/-- Square of the warp-target width of lines 131:
width = max(norm(rect0 - rect1), norm(rect2 - rect3)). -/
def warpWidthSq (p0 p1 p2 p3 : ℤ × ℤ) : ℤ :=
  match order_points p0 p1 p2 p3 with
  | (r0, r1, r2, r3) => max (sqDist r0 r1) (sqDist r2 r3)

/-- Square of the warp-target height of line 132:
height = max(norm(rect0 - rect3), norm(rect1 - rect2)). -/
def warpHeightSq (p0 p1 p2 p3 : ℤ × ℤ) : ℤ :=
  match order_points p0 p1 p2 p3 with
  | (r0, r1, r2, r3) => max (sqDist r0 r3) (sqDist r1 r2)

/-! ## Embedding of the success path of recognize_sudoku_from_image
(lines 100-162)

The image preprocessing (imread, grayscale, blur, threshold), the perspective
warp itself and the per-tile pixel content are external library effects; the
repository's own control flow is: fail if preprocessing fails, fail if
find_sudoku_grid fails, otherwise build the 9 x 9 grid whose (i, j) entry is
recognize_digit applied to the OCR output for cell (i, j). -/

def recognize_sudoku_from_image (preprocessOk : Bool)
    (contours : List PyContour) (ocr : ℕ → ℕ → List Char) :
    Option (List (List ℕ)) :=
  if !preprocessOk then none
  else
    match find_sudoku_grid contours with
    | none => none
    | some _ =>
      some ((List.range 9).map fun i =>
        (List.range 9).map fun j => recognize_digit (ocr i j))

/-! ## Embedding of GameScreenCapture's all-monitors capture path
(capture_with_pillow lines 47-67, capture_with_mss lines 70-107, and the
final branch of main, lines 458-470)

A capture backend's import and body are external effects, modelled as
Except values; the repository's functions catch every exception and turn it
into a (None, message) return, here an Except.error carrying a constructor
that records which message format line produced it. -/

inductive CapErr (μ : Type) where
  | pillowImportMissing (e : μ)
  | pillowFailed (e : μ)
  | mssImportMissing (e : μ)
  | mssFailed (e : μ)
deriving Repr, DecidableEq

/-- GameScreenCapture.capture_with_pillow: an import failure yields the
library-missing message, any exception in the capture body yields the
capture-failed message, success yields the saved paths; no exception
escapes. -/
def capture_with_pillow {μ π : Type} (imp : Except μ Unit)
    (body : Except μ (List π)) : Except (CapErr μ) (List π) :=
  match imp with
  | .error e => .error (.pillowImportMissing e)
  | .ok _ =>
    match body with
    | .error e => .error (.pillowFailed e)
    | .ok ps => .ok ps

/-- GameScreenCapture.capture_with_mss, same shape as the Pillow backend. -/
def capture_with_mss {μ π : Type} (imp : Except μ Unit)
    (body : Except μ (List π)) : Except (CapErr μ) (List π) :=
  match imp with
  | .error e => .error (.mssImportMissing e)
  | .ok _ =>
    match body with
    | .error e => .error (.mssFailed e)
    | .ok ps => .ok ps

/-- Outcome of main: either paths were saved (then main prints them and
returns normally, exit status 0) or main printed the listed failure reasons
and called sys.exit(1). -/
inductive MainOutcome (μ π : Type) where
  | saved (paths : List π)
  | failed (reasons : List (CapErr μ))
deriving Repr, DecidableEq

/-- Exit status of the process for a MainOutcome. -/
def mainExit {μ π : Type} : MainOutcome μ π → ℕ
  | .saved _ => 0
  | .failed _ => 1

/-- The all-monitors branch of GameScreenCapture.main (lines 458-470): try
Pillow first; only if it failed, try mss; if both failed, print both error
messages in order and exit with status 1. -/
def main_all_monitors {μ π : Type} (pImp : Except μ Unit)
    (pBody : Except μ (List π)) (mImp : Except μ Unit)
    (mBody : Except μ (List π)) : MainOutcome μ π :=
  match capture_with_pillow pImp pBody with
  | .ok ps => .saved ps
  | .error e1 =>
    match capture_with_mss mImp mBody with
    | .ok ps => .saved ps
    | .error e2 => .failed [e1, e2]

/-! ## Embedding of SudokuSolver.main step 1 (lines 28-71) against
GameScreenCapture's argument parser (lines 414-425)

GameScreenCapture.main defines exactly these option strings (argparse adds
the help options itself); SudokuSolver invokes the script with --extract-sudoku and
--only-sudoku. argparse rejects an unrecognised option token and exits the
child with status 2; subprocess.run(check=True) then raises
CalledProcessError, which SudokuSolver catches and answers with
sys.exit(1). -/

def gc_option_strings : List (List Char) :=
  ["-h", "--help", "--output", "-o", "--all", "--monitor", "--window",
   "--client-only", "--delay", "--format", "-f", "--quality"].map
    String.toList

/-- Whether the first list is an initial segment of the second. -/
def initialSeg : List Char → List Char → Bool
  | [], _ => true
  | _ :: _, [] => false
  | a :: as, b :: bs => a = b && initialSeg as bs

/-- Token starting with a double dash, i.e. a long-option token. -/
def longOptionToken : List Char → Bool
  | '-' :: '-' :: _ :: _ => true
  | _ => false

/-- argparse recognition of a long-option token, modelled for tokens without
an equals sign: the token must be one of the parser's option strings or an
abbreviation (initial segment) of one. -/
def gc_recognizes (t : List Char) : Bool :=
  gc_option_strings.any fun o => initialSeg t o

/-- argparse front gate of GameScreenCapture.main: an unrecognised
long-option token in argv makes parse_args print a usage error and exit the
process with status 2, before any capture work; otherwise parsing proceeds. -/
def gc_argparse_exit (argv : List (List Char)) : Option ℕ :=
  if argv.any (fun t => longOptionToken t && !gc_recognizes t) then some 2
  else none

/-- The argv SudokuSolver.main passes to GameScreenCapture.py in step 1. -/
def solver_capture_args : List (List Char) :=
  ["--extract-sudoku", "--only-sudoku"].map String.toList

/-- SudokuSolver.main: run the capture child with check=True; a nonzero
child exit raises CalledProcessError, which is caught and answered by
sys.exit(1); only if the child succeeds does the rest of the pipeline run,
whose exit status is abstracted as restExit. -/
def sudoku_solver_main (restExit : ℕ) : ℕ :=
  match gc_argparse_exit solver_capture_args with
  | some _ => 1
  | none => restExit

/-! ## Manual rectangle override

Modelled from the spec: no function in src/ parses or clamps a manual board
rectangle (GameScreenCapture.py's argument parser has no such flag, although
SudokuSolver.py still invokes extraction flags of an earlier version); the
definitions below follow spec section 4.2 word for word: parse four integers
x,y,w,h; clamp x and y into [0, image_dim - 1] and width and height into
[1, remaining_dim]. -/

/-- Modelled from the spec: parse an optionally negated run of decimal
digits; none on any other shape of token. -/
def parseIntChars (s : List Char) : Option ℤ :=
  match s with
  | '-' :: rest =>
    if rest ≠ [] ∧ rest.all pyIsDigitChar then some (-(pyInt rest : ℤ)) else none
  | _ =>
    if s ≠ [] ∧ s.all pyIsDigitChar then some (pyInt s : ℤ) else none

/-- Split a character list on commas. -/
def splitComma (s : List Char) : List (List Char) :=
  match s.foldr (fun c acc =>
      match acc with
      | (cur, done) => if c = ',' then ([], cur :: done) else (c :: cur, done))
      (([] : List Char), ([] : List (List Char))) with
  | (cur, done) => cur :: done

/-- Modelled from the spec: clamp a parsed rectangle into a w x h image,
x and y into [0, dim - 1], width and height into [1, remaining]. -/
def clamp_manual_rect (imgW imgH : ℤ) (r : ℤ × ℤ × ℤ × ℤ) :
    ℤ × ℤ × ℤ × ℤ :=
  let x := max 0 (min r.1 (imgW - 1))
  let y := max 0 (min r.2.1 (imgH - 1))
  let w := max 1 (min r.2.2.1 (imgW - x))
  let h := max 1 (min r.2.2.2 (imgH - y))
  (x, y, w, h)

/-- Modelled from the spec: the manual rectangle override parses the
x,y,w,h token and always succeeds by clamping, failing only on unparseable
input. -/
def manual_rect_override (imgW imgH : ℤ) (s : List Char) :
    Option (ℤ × ℤ × ℤ × ℤ) :=
  match (splitComma s).map parseIntChars with
  | [some x, some y, some w, some h] =>
    some (clamp_manual_rect imgW imgH (x, y, w, h))
  | _ => none

/-! ## Helper lemmas about the maximal-area fold of find_sudoku_grid -/

lemma areaFold_start_le (cs : List PyContour) (a : PyContour) :
    a.area ≤ (cs.foldl (fun a d => if a.area < d.area then d else a) a).area := by
  induction cs generalizing a with
  | nil => exact le_refl _
  | cons c cs ih =>
    refine le_trans ?_ (ih (if a.area < c.area then c else a))
    split
    · exact le_of_lt (by assumption)
    · exact le_refl _

lemma areaFold_all_le (cs : List PyContour) (a : PyContour) :
    ∀ d ∈ cs, d.area ≤ (cs.foldl (fun a d => if a.area < d.area then d else a) a).area := by
  induction cs generalizing a with
  | nil => intro d hd; simp at hd
  | cons c cs ih =>
    intro d hd
    rcases List.mem_cons.mp hd with rfl | hd
    · refine le_trans ?_ (areaFold_start_le cs (if a.area < d.area then d else a))
      split
      · exact le_refl _
      · exact le_of_not_lt (by assumption)
    · exact ih _ d hd

lemma areaFold_mem (cs : List PyContour) (a : PyContour) :
    cs.foldl (fun a d => if a.area < d.area then d else a) a = a ∨
    cs.foldl (fun a d => if a.area < d.area then d else a) a ∈ cs := by
  induction cs generalizing a with
  | nil => left; rfl
  | cons c cs ih =>
    simp only [List.foldl_cons]
    rcases ih (if a.area < c.area then c else a) with h | h
    · rw [h]
      split
      · right; exact List.mem_cons_self _ _
      · left; rfl
    · right; exact List.mem_cons_of_mem _ h

lemma maxByArea_mem (cs : List PyContour) (c : PyContour)
    (h : maxByArea cs = some c) : c ∈ cs := by
  cases cs with
  | nil => simp [maxByArea] at h
  | cons a as =>
    simp only [maxByArea, Option.some.injEq] at h
    rcases areaFold_mem as a with h' | h'
    · rw [← h, h']; exact List.mem_cons_self _ _
    · rw [← h]; exact List.mem_cons_of_mem _ h'

lemma maxByArea_ge (cs : List PyContour) (c : PyContour)
    (h : maxByArea cs = some c) : ∀ d ∈ cs, d.area ≤ c.area := by
  cases cs with
  | nil => simp [maxByArea] at h
  | cons a as =>
    simp only [maxByArea, Option.some.injEq] at h
    intro d hd
    rcases List.mem_cons.mp hd with rfl | hd
    · rw [← h]; exact areaFold_start_le as d
    · rw [← h]; exact areaFold_all_le as a d hd

lemma maxByArea_eq_none_iff (cs : List PyContour) :
    maxByArea cs = none ↔ cs = [] := by
  cases cs <;> simp [maxByArea]

/-! ## Claim C1 -/

/-- Claim C1 as stated is false on the code: find_sudoku_grid applies no
area-fraction or aspect-ratio filter. Here the only contour of a 100 x 100
image has a bounding rectangle of area 121, barely over 1 percent of the
10000-pixel image area; the claimed rule discards it (specSelect returns no
candidate), yet find_sudoku_grid selects and returns it. -/
theorem find_sudoku_grid_ignores_spec_filter :
    find_sudoku_grid [⟨100, [(0, 0), (10, 0), (10, 10), (0, 10)]⟩] =
      some [(0, 0), (10, 0), (10, 10), (0, 10)] ∧
    rectArea (boundingRect (0, 0) [(10, 0), (10, 10), (0, 10)]) <
      (100 * 100 : ℚ) * (5 / 100) ∧
    specSelect (100 * 100) [boundingRect (0, 0) [(10, 0), (10, 10), (0, 10)]] =
      none := by
  have hbr : boundingRect (0, 0) [(10, 0), (10, 10), (0, 10)] = (0, 0, 11, 11) := by
    decide
  have hf : specFilter (100 * 100) ((0 : ℤ), (0 : ℤ), (11 : ℤ), (11 : ℤ)) = false := by
    simp only [specFilter, rectArea, rectRatio]
    norm_num
  refine ⟨rfl, ?_, ?_⟩
  · rw [hbr]
    simp only [rectArea]
    norm_num
  · rw [hbr]
    simp only [specSelect, List.filter, hf]

/-- Claim C1 (amended): board/grid detection ignores the spec's
filter-and-score rule; it selects the contour of maximal cv2.contourArea
(first encountered wins ties) and returns its polygonal approximation
exactly when that approximation has 4 vertices. Whenever detection returns a
candidate, the candidate has 4 vertices and is the approximation of a
contour of maximal area among all contours. -/
theorem find_sudoku_grid_selects_max_area (cs : List PyContour)
    (p : List (ℤ × ℤ)) (h : find_sudoku_grid cs = some p) :
    p.length = 4 ∧ ∃ c ∈ cs, c.approx = p ∧ ∀ d ∈ cs, d.area ≤ c.area := by
  unfold find_sudoku_grid at h
  split at h
  · cases h
  · rename_i c hm
    split at h
    · rename_i h4
      obtain rfl : c.approx = p := by injection h
      exact ⟨h4, c, maxByArea_mem cs c hm, rfl, maxByArea_ge cs c hm⟩
    · cases h

/-- Witness for the amended C1 theorem at a concrete contour list. -/
theorem find_sudoku_grid_selects_max_area_witness :
    ([(0, 0), (9, 0), (9, 9), (0, 9)] : List (ℤ × ℤ)).length = 4 ∧
    ∃ c ∈ [(⟨40, [(0, 0), (9, 0), (9, 9), (0, 9)]⟩ : PyContour), ⟨81, [(0, 0), (9, 0), (9, 9), (0, 9)]⟩],
      c.approx = [(0, 0), (9, 0), (9, 9), (0, 9)] ∧
      ∀ d ∈ [(⟨40, [(0, 0), (9, 0), (9, 9), (0, 9)]⟩ : PyContour), ⟨81, [(0, 0), (9, 0), (9, 9), (0, 9)]⟩],
        d.area ≤ c.area :=
  find_sudoku_grid_selects_max_area _ _ (by decide)

/-! ## Claim C2 -/

/-- Claim C2 as stated is false on the code: a contour can pass the spec's
area and aspect filters (bounding rectangle 81 x 81 in a 100 x 100 image,
aspect ratio 1, area well above 5 percent) while find_sudoku_grid still
fails, because the contour's polygonal approximation has 5 vertices rather
than 4. -/
theorem find_sudoku_grid_none_despite_qualifying :
    find_sudoku_grid [⟨6000, [(0, 0), (60, 0), (80, 40), (60, 80), (0, 80)]⟩] =
      none ∧
    specFilter (100 * 100)
      (boundingRect (0, 0) [(60, 0), (80, 40), (60, 80), (0, 80)]) = true := by
  have hbr : boundingRect (0, 0) [(60, 0), (80, 40), (60, 80), (0, 80)] =
      (0, 0, 81, 81) := by decide
  refine ⟨rfl, ?_⟩
  rw [hbr]
  simp only [specFilter, rectArea, rectRatio]
  norm_num

/-- Claim C2 (amended): find_sudoku_grid fails exactly when the mask yields
no contours or the selected maximal-area contour's polygonal approximation
does not have exactly 4 vertices; the area/aspect filters play no role. -/
theorem find_sudoku_grid_none_iff (cs : List PyContour) :
    find_sudoku_grid cs = none ↔
      cs = [] ∨ ∃ c, maxByArea cs = some c ∧ c.approx.length ≠ 4 := by
  unfold find_sudoku_grid
  split
  · rename_i hm
    exact Iff.intro (fun _ => Or.inl ((maxByArea_eq_none_iff cs).mp hm))
      (fun _ => rfl)
  · rename_i c hm
    have hne : cs ≠ [] := by
      intro hnil
      rw [hnil] at hm
      simp [maxByArea] at hm
    by_cases h4 : c.approx.length = 4
    · rw [if_pos h4]
      simp only [reduceCtorEq, false_iff, not_or]
      refine ⟨hne, ?_⟩
      rintro ⟨c', hc', hlen⟩
      rw [hm] at hc'
      obtain rfl : c = c' := by injection hc'
      exact hlen h4
    · rw [if_neg h4]
      simp only [true_iff]
      exact Or.inr ⟨c, hm, h4⟩

/-! ## Helper lemmas for the argmin/argmax corner selection -/

lemma pickMin4_le (k : ℤ × ℤ → ℤ) (p0 p1 p2 p3 : ℤ × ℤ) :
    k (pickMin4 k p0 p1 p2 p3) ≤ k p0 ∧ k (pickMin4 k p0 p1 p2 p3) ≤ k p1 ∧
    k (pickMin4 k p0 p1 p2 p3) ≤ k p2 ∧ k (pickMin4 k p0 p1 p2 p3) ≤ k p3 := by
  unfold pickMin4
  split_ifs <;> refine ⟨?_, ?_, ?_, ?_⟩ <;> omega

lemma pickMin4_mem (k : ℤ × ℤ → ℤ) (p0 p1 p2 p3 : ℤ × ℤ) :
    pickMin4 k p0 p1 p2 p3 = p0 ∨ pickMin4 k p0 p1 p2 p3 = p1 ∨
    pickMin4 k p0 p1 p2 p3 = p2 ∨ pickMin4 k p0 p1 p2 p3 = p3 := by
  unfold pickMin4
  split_ifs <;> tauto

lemma pickMax4_ge (k : ℤ × ℤ → ℤ) (p0 p1 p2 p3 : ℤ × ℤ) :
    k p0 ≤ k (pickMax4 k p0 p1 p2 p3) ∧ k p1 ≤ k (pickMax4 k p0 p1 p2 p3) ∧
    k p2 ≤ k (pickMax4 k p0 p1 p2 p3) ∧ k p3 ≤ k (pickMax4 k p0 p1 p2 p3) := by
  unfold pickMax4
  split_ifs <;> refine ⟨?_, ?_, ?_, ?_⟩ <;> omega

lemma pickMax4_mem (k : ℤ × ℤ → ℤ) (p0 p1 p2 p3 : ℤ × ℤ) :
    pickMax4 k p0 p1 p2 p3 = p0 ∨ pickMax4 k p0 p1 p2 p3 = p1 ∨
    pickMax4 k p0 p1 p2 p3 = p2 ∨ pickMax4 k p0 p1 p2 p3 = p3 := by
  unfold pickMax4
  split_ifs <;> tauto

/-! ## Claim C3 -/

/-- Claim C3 as stated is false on the code: ordering the corners of the
quadrilateral (0,0), (100,0), (100,50), (0,50) proceeds exactly as the claim
says, but the warp target built in lines 131-139 has squared width 10000 and
squared height 2500: it is an axis-aligned 100 x 50 rectangle, not a square
of side equal to the maximum measured edge length. -/
theorem order_points_dst_not_square :
    order_points (0, 0) (100, 0) (100, 50) (0, 50) =
      ((0, 0), (100, 0), (100, 50), (0, 50)) ∧
    warpWidthSq (0, 0) (100, 0) (100, 50) (0, 50) = 10000 ∧
    warpHeightSq (0, 0) (100, 0) (100, 50) (0, 50) = 2500 ∧
    (10000 : ℤ) ≠ 2500 := by
  refine ⟨by decide, by decide, by decide, by decide⟩

/-- Claim C3 (amended): the four corners are ordered exactly as claimed
(top-left attains the minimal coordinate sum, bottom-right the maximal sum,
top-right the minimal difference, bottom-left the maximal difference, each
chosen among the four input points), but the warp destination of lines
134-139 is the axis-aligned rectangle of corners (0,0), (width-1,0),
(width-1,height-1), (0,height-1) with width the larger of the top and bottom
edge lengths and height the larger of the left and right edge lengths; it is
a square only when those two maxima coincide. -/
theorem order_points_corner_bounds (p0 p1 p2 p3 : ℤ × ℤ) :
    (coordSum (order_points p0 p1 p2 p3).1 ≤ coordSum p0 ∧
     coordSum (order_points p0 p1 p2 p3).1 ≤ coordSum p1 ∧
     coordSum (order_points p0 p1 p2 p3).1 ≤ coordSum p2 ∧
     coordSum (order_points p0 p1 p2 p3).1 ≤ coordSum p3) ∧
    (coordSum p0 ≤ coordSum (order_points p0 p1 p2 p3).2.2.1 ∧
     coordSum p1 ≤ coordSum (order_points p0 p1 p2 p3).2.2.1 ∧
     coordSum p2 ≤ coordSum (order_points p0 p1 p2 p3).2.2.1 ∧
     coordSum p3 ≤ coordSum (order_points p0 p1 p2 p3).2.2.1) ∧
    (coordDiff (order_points p0 p1 p2 p3).2.1 ≤ coordDiff p0 ∧
     coordDiff (order_points p0 p1 p2 p3).2.1 ≤ coordDiff p1 ∧
     coordDiff (order_points p0 p1 p2 p3).2.1 ≤ coordDiff p2 ∧
     coordDiff (order_points p0 p1 p2 p3).2.1 ≤ coordDiff p3) ∧
    (coordDiff p0 ≤ coordDiff (order_points p0 p1 p2 p3).2.2.2 ∧
     coordDiff p1 ≤ coordDiff (order_points p0 p1 p2 p3).2.2.2 ∧
     coordDiff p2 ≤ coordDiff (order_points p0 p1 p2 p3).2.2.2 ∧
     coordDiff p3 ≤ coordDiff (order_points p0 p1 p2 p3).2.2.2) ∧
    ((order_points p0 p1 p2 p3).1 ∈ [p0, p1, p2, p3] ∧
     (order_points p0 p1 p2 p3).2.1 ∈ [p0, p1, p2, p3] ∧
     (order_points p0 p1 p2 p3).2.2.1 ∈ [p0, p1, p2, p3] ∧
     (order_points p0 p1 p2 p3).2.2.2 ∈ [p0, p1, p2, p3]) ∧
    warpWidthSq p0 p1 p2 p3 =
      max (sqDist (order_points p0 p1 p2 p3).1 (order_points p0 p1 p2 p3).2.1)
        (sqDist (order_points p0 p1 p2 p3).2.2.1 (order_points p0 p1 p2 p3).2.2.2) ∧
    warpHeightSq p0 p1 p2 p3 =
      max (sqDist (order_points p0 p1 p2 p3).1 (order_points p0 p1 p2 p3).2.2.2)
        (sqDist (order_points p0 p1 p2 p3).2.1 (order_points p0 p1 p2 p3).2.2.1) := by
  refine ⟨pickMin4_le coordSum p0 p1 p2 p3, pickMax4_ge coordSum p0 p1 p2 p3,
    pickMin4_le coordDiff p0 p1 p2 p3, pickMax4_ge coordDiff p0 p1 p2 p3,
    ⟨?_, ?_, ?_, ?_⟩, rfl, rfl⟩
  · rcases pickMin4_mem coordSum p0 p1 p2 p3 with h | h | h | h <;> simp [order_points, h]
  · rcases pickMin4_mem coordDiff p0 p1 p2 p3 with h | h | h | h <;> simp [order_points, h]
  · rcases pickMax4_mem coordSum p0 p1 p2 p3 with h | h | h | h <;> simp [order_points, h]
  · rcases pickMax4_mem coordDiff p0 p1 p2 p3 with h | h | h | h <;> simp [order_points, h]

/-! ## Claim C4 -/

/-- Claim C4 as stated is false on the code: for a 900 x 900 rectified grid,
the cell size is 900 // 9 = 100 and the margin-5 slice keeps 100 - 10 = 90
indices per axis, so each tile is 90 x 90 and not 80 x 80. The first tile of
extract_cells is shown to have 90 rows of 90 entries each. -/
theorem tile_size_900_not_80 :
    (tileIdx 900 0).length = 90 ∧
    ((extract_cells 900 900 fun _ _ => 0).headD []).headD [] =
      (tileIdx 900 0).map (fun _ => (tileIdx 900 0).map fun _ => (0 : ℕ)) ∧
    ((((extract_cells 900 900 fun _ _ => 0).headD []).headD []).length = 90) ∧
    (90 : ℕ) ≠ 80 := by
  have h1 : (tileIdx 900 0).length = 90 := by decide
  have h2 : ((extract_cells 900 900 fun _ _ => 0).headD []).headD [] =
      (tileIdx 900 0).map (fun _ => (tileIdx 900 0).map fun _ => (0 : ℕ)) := rfl
  refine ⟨h1, h2, ?_, by decide⟩
  rw [h2, List.length_map, h1]

/-- Claim C4 (amended): for a rectified grid image of size 900 x 900 the
9 x 9 tiling with inward margin 5 produces exactly 81 tiles (9 rows of 9)
each of size 90 x 90, and each tile is centered within its 100-pixel cell:
tile k along either axis covers exactly the indices
[k * 100 + 5, k * 100 + 95), leaving the 5-pixel margin on both sides. -/
theorem extract_cells_900_tiles (row : ℕ) (hrow : row < 9) :
    tileIdx 900 row = List.range' (row * 100 + 5) 90 ∧
    (tileIdx 900 row).length = 90 ∧
    (extract_cells 900 900 fun _ _ => 0).length = 9 ∧
    (∀ rowTiles ∈ extract_cells 900 900 (fun _ _ => 0), rowTiles.length = 9) := by
  refine ⟨?_, ?_, ?_, ?_⟩
  · interval_cases row <;> decide
  · interval_cases row <;> decide
  · simp [extract_cells]
  · intro rowTiles hmem
    simp only [extract_cells, List.mem_map] at hmem
    obtain ⟨r, _, rfl⟩ := hmem
    simp

/-- Witness for the amended C4 theorem at row 0. -/
theorem extract_cells_900_tiles_witness :
    tileIdx 900 0 = List.range' (0 * 100 + 5) 90 ∧
    (tileIdx 900 0).length = 90 ∧
    (extract_cells 900 900 fun _ _ => 0).length = 9 ∧
    (∀ rowTiles ∈ extract_cells 900 900 (fun _ _ => 0), rowTiles.length = 9) :=
  extract_cells_900_tiles 0 (by decide)

/-! ## Claim C5 -/

/-- Claim C5 as stated is false on the code: recognize_digit strips
surrounding whitespace before the single-digit check, so the two-character
OCR result consisting of the digit 7 followed by a newline (exactly what
pytesseract emits) is mapped to 7, while the claim requires every
multi-character result to map to 0. -/
theorem recognize_digit_multichar_not_zero :
    recognize_digit ['7', '\n'] = 7 ∧
    (['7', '\n'] : List Char).length = 2 ∧ (7 : ℕ) ≠ 0 := by
  refine ⟨by decide, by decide, by decide⟩

/-- Claim C5 (amended): the normalization applies after stripping leading
and trailing whitespace: if the stripped OCR result is a single decimal
digit character the cell value is that digit's integer value, and in every
other case (empty, longer than one character, or a non-digit character after
stripping) the cell value is 0. -/
theorem recognize_digit_normalizes (s : List Char) :
    ((pyStrip s).length ≠ 1 → recognize_digit s = 0) ∧
    (∀ c : Char, pyStrip s = [c] →
      (pyIsDigitChar c = true → recognize_digit s = c.toNat - 48) ∧
      (pyIsDigitChar c = false → recognize_digit s = 0)) := by
  constructor
  · intro hlen
    unfold recognize_digit
    simp only [Bool.or_eq_true, decide_eq_true_eq]
    rw [if_pos (Or.inl (Or.inr hlen))]
  · intro c hc
    constructor
    · intro hd
      unfold recognize_digit
      rw [hc]
      simp [pyIsDigitStr, pyInt, hd]
    · intro hd
      unfold recognize_digit
      rw [hc]
      simp [pyIsDigitStr, hd]

/-- Witness for the amended C5 theorem on the OCR result "7" followed by a
newline. -/
theorem recognize_digit_normalizes_witness :
    recognize_digit ['7', '\n'] = '7'.toNat - 48 :=
  ((recognize_digit_normalizes ['7', '\n']).2 '7' (by decide)).1 (by decide)

/-! ## Claim C6 -/

lemma recognize_digit_le_nine (s : List Char) : recognize_digit s ≤ 9 := by
  unfold recognize_digit
  dsimp only
  split
  · omega
  · rename_i hcond
    have hlen : (pyStrip s).length = 1 := by
      by_contra hne
      exact hcond (by simp [hne])
    have hdig : pyIsDigitStr (pyStrip s) = true := by
      by_contra hne
      rw [Bool.not_eq_true] at hne
      exact hcond (by simp [hne])
    obtain ⟨c, hc⟩ := List.length_eq_one.mp hlen
    rw [hc] at hdig
    simp only [pyIsDigitStr, pyIsDigitChar, List.all_cons, List.all_nil,
      Bool.and_true, List.isEmpty_cons, Bool.not_false, Bool.true_and,
      Bool.and_eq_true, decide_eq_true_eq] at hdig
    rw [hc]
    simp only [pyInt, List.foldl_cons, List.foldl_nil]
    omega

/-- Claim C6 (confirmed): whenever grid recognition succeeds, the result is
a 9 x 9 grid each of whose entries is a digit in 0..9 (0 standing for an
empty or unrecognized cell); this holds for every possible OCR output. -/
theorem recognize_sudoku_grid_digits (pre : Bool) (cs : List PyContour)
    (ocr : ℕ → ℕ → List Char) (g : List (List ℕ))
    (h : recognize_sudoku_from_image pre cs ocr = some g) :
    g.length = 9 ∧ ∀ row ∈ g, row.length = 9 ∧ ∀ d ∈ row, d ≤ 9 := by
  unfold recognize_sudoku_from_image at h
  split at h
  · cases h
  · split at h
    · cases h
    · obtain rfl : _ = g := by injection h
      refine ⟨by simp, ?_⟩
      intro row hrow
      simp only [List.mem_map] at hrow
      obtain ⟨i, -, rfl⟩ := hrow
      refine ⟨by simp, ?_⟩
      intro d hd
      simp only [List.mem_map] at hd
      obtain ⟨j, -, rfl⟩ := hd
      exact recognize_digit_le_nine _

/-- Witness for the C6 theorem: a pipeline run that succeeds with every
cell read as the digit 5. -/
theorem recognize_sudoku_grid_digits_witness :
    (List.replicate 9 (List.replicate 9 5) : List (List ℕ)).length = 9 ∧
    ∀ row ∈ (List.replicate 9 (List.replicate 9 5) : List (List ℕ)),
      row.length = 9 ∧ ∀ d ∈ row, d ≤ 9 :=
  recognize_sudoku_grid_digits true [⟨1, [(0, 0), (4, 0), (4, 4), (0, 4)]⟩]
    (fun _ _ => ['5']) (List.replicate 9 (List.replicate 9 5)) (by decide)

/-! ## Claim C7 -/

/-- Claim C7 (confirmed against the spec model): clamping keeps x and y in
[0, image_dim - 1] and width and height in [1, remaining_dim] for every
parsed rectangle, the override succeeds on every parseable input by
clamping, and on a 100 x 100 image the input 90,90,50,50 clamps to
(90, 90, 10, 10). -/
theorem manual_rect_clamps (imgW imgH x y w h : ℤ)
    (hW : 1 ≤ imgW) (hH : 1 ≤ imgH) :
    (match clamp_manual_rect imgW imgH (x, y, w, h) with
     | (x', y', w', h') =>
       0 ≤ x' ∧ x' ≤ imgW - 1 ∧ 0 ≤ y' ∧ y' ≤ imgH - 1 ∧
       1 ≤ w' ∧ w' ≤ imgW - x' ∧ 1 ≤ h' ∧ h' ≤ imgH - y') ∧
    (∀ s px py pw ph,
      (splitComma s).map parseIntChars = [some px, some py, some pw, some ph] →
      manual_rect_override imgW imgH s =
        some (clamp_manual_rect imgW imgH (px, py, pw, ph))) ∧
    manual_rect_override 100 100 (String.toList "90,90,50,50") =
      some (90, 90, 10, 10) := by
  refine ⟨?_, ?_, ?_⟩
  · simp only [clamp_manual_rect]
    omega
  · intro s px py pw ph hp
    unfold manual_rect_override
    rw [hp]
  · decide

/-- Witness for the C7 theorem on the spec's 100 x 100 example image. -/
theorem manual_rect_clamps_witness :
    (match clamp_manual_rect 100 100 (90, 90, 50, 50) with
     | (x', y', w', h') =>
       0 ≤ x' ∧ x' ≤ 100 - 1 ∧ 0 ≤ y' ∧ y' ≤ 100 - 1 ∧
       1 ≤ w' ∧ w' ≤ 100 - x' ∧ 1 ≤ h' ∧ h' ≤ 100 - y') ∧
    (∀ s px py pw ph,
      (splitComma s).map parseIntChars = [some px, some py, some pw, some ph] →
      manual_rect_override 100 100 s =
        some (clamp_manual_rect 100 100 (px, py, pw, ph))) ∧
    manual_rect_override 100 100 (String.toList "90,90,50,50") =
      some (90, 90, 10, 10) :=
  manual_rect_clamps 100 100 90 90 50 50 (by decide) (by decide)

/-! ## Claim C8 -/

/-- Claim C8 (confirmed): the all-monitors capture follows a linear fallback
chain. If the Pillow backend succeeds, its paths are saved regardless of the
mss backend; if Pillow fails with any caught reason and mss succeeds, the
mss paths are saved; if both fail, main reports exactly the two failure
reasons in attempt order and the process exit status is 1. -/
theorem main_all_monitors_fallback {μ π : Type} (pImp mImp : Except μ Unit)
    (pBody mBody : Except μ (List π)) :
    (∀ ps : List π, capture_with_pillow pImp pBody = Except.ok ps →
      main_all_monitors pImp pBody mImp mBody = MainOutcome.saved ps) ∧
    (∀ (e1 : CapErr μ) (ps : List π),
      capture_with_pillow pImp pBody = Except.error e1 →
      capture_with_mss mImp mBody = Except.ok ps →
      main_all_monitors pImp pBody mImp mBody = MainOutcome.saved ps) ∧
    (∀ e1 e2 : CapErr μ,
      capture_with_pillow pImp pBody = Except.error e1 →
      capture_with_mss mImp mBody = Except.error e2 →
      main_all_monitors pImp pBody mImp mBody = MainOutcome.failed [e1, e2] ∧
      mainExit (main_all_monitors pImp pBody mImp mBody) = 1) := by
  refine ⟨?_, ?_, ?_⟩
  · intro ps hp
    unfold main_all_monitors
    rw [hp]
  · intro e1 ps hp hm
    unfold main_all_monitors
    rw [hp, hm]
  · intro e1 e2 hp hm
    unfold main_all_monitors
    rw [hp, hm]
    exact ⟨rfl, rfl⟩

/-- Witness for the C8 theorem: Pillow's import is missing and the mss
capture body raises, so main reports both reasons and exits with status 1. -/
theorem main_all_monitors_fallback_witness :
    main_all_monitors (Except.error (7 : ℕ))
      (Except.error 8 : Except ℕ (List ℕ)) (Except.ok ())
      (Except.error 9 : Except ℕ (List ℕ)) =
      MainOutcome.failed [CapErr.pillowImportMissing 7, CapErr.mssFailed 9] ∧
    mainExit (main_all_monitors (Except.error (7 : ℕ))
      (Except.error 8 : Except ℕ (List ℕ)) (Except.ok ())
      (Except.error 9 : Except ℕ (List ℕ))) = 1 :=
  (main_all_monitors_fallback (Except.error 7) (Except.ok ())
    (Except.error 8) (Except.error 9)).2.2
    (CapErr.pillowImportMissing 7) (CapErr.mssFailed 9) rfl rfl

/-! ## Claim C9 -/

/-- Claim C9 (confirmed): SudokuSolver.main launches GameScreenCapture.py
with the flags --extract-sudoku and --only-sudoku, neither of which the
capture script's argument parser defines (not even as an abbreviation of a
defined option), so the child always exits with argparse's status 2 and the
orchestrator exits with status 1 no matter what the rest of the pipeline
would have returned. -/
theorem sudoku_solver_always_exits_one :
    (∀ restExit : ℕ, sudoku_solver_main restExit = 1) ∧
    gc_recognizes (String.toList "--extract-sudoku") = false ∧
    gc_recognizes (String.toList "--only-sudoku") = false ∧
    gc_argparse_exit solver_capture_args = some 2 := by
  refine ⟨fun restExit => rfl, by decide, by decide, by decide⟩

/-! ## Claim C10 -/

lemma pyBound_of_nonneg_le (len : ℕ) (i : ℤ) (h0 : 0 ≤ i) (hle : i ≤ len) :
    pyBound len i = i.toNat := by
  unfold pyBound
  dsimp only
  rw [if_neg (by omega), if_neg (by omega)]
  omega

/-- Claim C10 as stated is false on the code: for a 17 x 17 warped image the
cell size is 17 // 9 = 1 and the stop index of tile (0, 0) is 1 - 5 = -4,
which Python slicing wraps to 17 - 4 = 13; the tile therefore holds rows 5
through 12 even though the claim makes it the empty interval [5, -4) (the
cell dimension 1 is at most 10), and row 9, which lies in the bottom
17 mod 9 = 8 rows that the claim says belong to no tile, is inside it. -/
theorem tile_slice_negative_wrap :
    tileIdx 17 0 = [5, 6, 7, 8, 9, 10, 11, 12] ∧
    (17 : ℕ) / 9 ≤ 10 ∧
    tileIdx 17 0 ≠ [] ∧
    9 * ((17 : ℕ) / 9) ≤ 9 ∧ 9 ∈ tileIdx 17 0 := by
  refine ⟨by decide, by decide, by decide, by decide, by decide⟩

/-- Claim C10 (amended): the stated slice geometry holds whenever the cell
dimension len // 9 is at least 5, so that no slice endpoint is negative: the
tile then covers exactly the interval [k*(len//9)+5, (k+1)*(len//9)-5), the
bottom len mod 9 indices (those at or beyond 9*(len//9)) belong to no tile,
and if the cell dimension is at most 10 every tile is empty. -/
theorem tileIdx_interval (len k : ℕ) (hk : k < 9) (hc : 5 ≤ len / 9) :
    (∀ r : ℕ, r ∈ tileIdx len k ↔
      k * (len / 9) + 5 ≤ r ∧ r + 5 < (k + 1) * (len / 9)) ∧
    (∀ r : ℕ, 9 * (len / 9) ≤ r → r ∉ tileIdx len k) ∧
    (len / 9 ≤ 10 → tileIdx len k = []) := by
  have hs : pyBound len ((k : ℤ) * ((len / 9 : ℕ) : ℤ) + 5) = k * (len / 9) + 5 := by
    interval_cases k <;>
      · rw [pyBound_of_nonneg_le len _ (by omega) (by omega)]
        omega
  have ht : pyBound len (((k : ℤ) + 1) * ((len / 9 : ℕ) : ℤ) - 5) =
      (k + 1) * (len / 9) - 5 := by
    interval_cases k <;>
      · rw [pyBound_of_nonneg_le len _ (by omega) (by omega)]
        omega
  have hlist : tileIdx len k =
      List.range' (k * (len / 9) + 5)
        (((k + 1) * (len / 9) - 5) - (k * (len / 9) + 5)) := by
    unfold tileIdx pySliceIdx
    dsimp only
    rw [hs, ht]
  refine ⟨?_, ?_, ?_⟩
  · intro r
    rw [hlist, List.mem_range'_1]
    interval_cases k <;> omega
  · intro r hr
    rw [hlist, List.mem_range'_1]
    interval_cases k <;> omega
  · intro h10
    rw [hlist]
    have hn : ((k + 1) * (len / 9) - 5) - (k * (len / 9) + 5) = 0 := by
      interval_cases k <;> omega
    rw [hn, List.range'_zero]

/-- Witness for the amended C10 theorem: a 90 x 90 warped image has cell
dimension 10, and tile (0, 0) is empty. -/
theorem tileIdx_interval_witness : tileIdx 90 0 = [] :=
  (tileIdx_interval 90 0 (by decide) (by decide)).2.2 (by decide)
